import Mathlib

/-!
Shallow embedding of the wiki-service repository (src/wiki-service): a CRUD
HTTP API over two relational entities (users, posts) with Prometheus-style
counters and a health probe.  The authoritative handler code is
src/wiki-service/app/routes.py; the SQLAlchemy entity models (classes User and
Post) appear in src/wiki-service/main.py lines 26-39, and the pydantic
request/response schemas in src/wiki-service/app/schemas.py.

The external relational store is modelled as an explicit in-memory state: rows
in insertion order (which coincides with primary-key order, since the store
assigns strictly increasing integer ids from a sequence starting at 1) plus the
next value of each id sequence.  Timestamps (datetime.utcnow) are modelled as a
Nat `now` supplied to each creating handler.  Connectivity failures of the
store are out of scope for the data endpoints (the store is treated as an
opaque reachable dependency); the health endpoint, whose whole purpose is to
probe connectivity, takes the reachability outcome as an explicit Boolean.
-/

/-- Persisted User row: class User in main.py lines 26-31
(id primary key, username unique, email unique, created_at default now). -/
structure User where
  id : Nat
  username : String
  email : String
  created_at : Nat
  deriving DecidableEq, Repr

/-- Persisted Post row: class Post in main.py lines 33-39
(id primary key, title, content, author_id plain integer, created_at). -/
structure Post where
  id : Nat
  title : String
  content : String
  author_id : Int
  created_at : Nat
  deriving DecidableEq, Repr

/-- Request body for POST /users/ (schemas.py UserCreate). -/
structure UserCreate where
  username : String
  email : String
  deriving DecidableEq, Repr

/-- Response shape for users (schemas.py UserResponse): id, username, email. -/
structure UserResponse where
  id : Nat
  username : String
  email : String
  deriving DecidableEq, Repr

/-- Request body for POST /posts/ (schemas.py PostCreate). -/
structure PostCreate where
  title : String
  content : String
  author_id : Int
  deriving DecidableEq, Repr

/-- Response shape for posts (schemas.py PostResponse):
id, title, content, author_id. -/
structure PostResponse where
  id : Nat
  title : String
  content : String
  author_id : Int
  deriving DecidableEq, Repr

/-- The Entity Store: the two tables in insertion order plus the id
sequences (Integer primary keys are auto-assigned by the store). -/
structure Store where
  users : List User
  posts : List Post
  nextUserId : Nat
  nextPostId : Nat
  deriving DecidableEq, Repr

/-- The two process-wide Prometheus counters (app/metrics.py lines 4-5). -/
structure Metrics where
  users_created_total : Nat
  posts_created_total : Nat
  deriving DecidableEq, Repr

/-- Whole service state: store contents plus counters. -/
structure AppState where
  store : Store
  metrics : Metrics
  deriving DecidableEq, Repr

/-- fastapi.HTTPException as raised by the handlers: status code and detail. -/
structure HTTPException where
  status_code : Nat
  detail : String
  deriving DecidableEq, Repr

/-- Empty store at process start (sequences begin at 1). -/
def initStore : Store := ⟨[], [], 1, 1⟩

/-- Process start state: empty store, both counters at 0. -/
def initState : AppState := ⟨initStore, ⟨0, 0⟩⟩

/-- The uniqueness constraints on users.username and users.email
(main.py lines 29-30): true when inserting (username, email) would
violate one of them. -/
def hasUserConflict (s : Store) (username email : String) : Bool :=
  s.users.any fun u => u.username == username || u.email == email

/-- Data-access insert for users (routes.py lines 23-25): commits a new row
with the store-assigned id, or fails (IntegrityError on commit) when a
uniqueness constraint is violated. -/
def insertUser (s : Store) (username email : String) (now : Nat) :
    Option (Store × User) :=
  if hasUserConflict s username email then none
  else
    let row : User := ⟨s.nextUserId, username, email, now⟩
    some ({ s with users := s.users ++ [row], nextUserId := s.nextUserId + 1 },
      row)

/-- Data-access insert for posts (routes.py lines 56-58): no uniqueness
constraints and no referential check on author_id, so the commit always
succeeds and the row is stored as given. -/
def insertPost (s : Store) (title content : String) (author_id : Int)
    (now : Nat) : Store × Post :=
  let row : Post := ⟨s.nextPostId, title, content, author_id, now⟩
  ({ s with posts := s.posts ++ [row], nextPostId := s.nextPostId + 1 }, row)

/-- select(User).filter(User.id == user_id) + scalar_one_or_none
(routes.py line 37).  The path id is a Python int, hence Int here. -/
def getUserById (s : Store) (uid : Int) : Option User :=
  s.users.find? fun u => (u.id : Int) == uid

/-- select(Post).filter(Post.id == post_id) + scalar_one_or_none
(routes.py line 70). -/
def getPostById (s : Store) (pid : Int) : Option Post :=
  s.posts.find? fun p => (p.id : Int) == pid

/-- select(User).offset(skip).limit(limit) (routes.py line 47): store-default
order is insertion order, offset then limit. -/
def listUsers (s : Store) (skip limit : Nat) : List User :=
  (s.users.drop skip).take limit

/-- select(Post).offset(skip).limit(limit) (routes.py line 80). -/
def listPosts (s : Store) (skip limit : Nat) : List Post :=
  (s.posts.drop skip).take limit

/-- Serialization of a persisted User into UserResponse: pydantic
from_attributes projection onto the declared response fields
(schemas.py lines 9-15). -/
def userToResponse (u : User) : UserResponse :=
  ⟨u.id, u.username, u.email⟩

/-- Serialization of a persisted Post into PostResponse
(schemas.py lines 24-31). -/
def postToResponse (p : Post) : PostResponse :=
  ⟨p.id, p.title, p.content, p.author_id⟩

/-- The detail string of the 400 raised on an insert failure is str(e) of the
store driver exception; its exact text is environment-specific and is
modelled by a fixed representative string. -/
def uniqueViolationDetail : String :=
  "duplicate key value violates unique constraint"

/-- POST /users/ (routes.py lines 19-31): insert and commit; on success
refresh, increment users_created_total and return the row serialized as
UserResponse; on failure roll the unit-of-work back (the state is left
exactly as it was) and raise HTTPException(400, str(e)). -/
def create_user (st : AppState) (user : UserCreate) (now : Nat) :
    AppState × Except HTTPException UserResponse :=
  match insertUser st.store user.username user.email now with
  | some (s2, row) =>
      (⟨s2, ⟨st.metrics.users_created_total + 1, st.metrics.posts_created_total⟩⟩,
        Except.ok (userToResponse row))
  | none => (st, Except.error ⟨400, uniqueViolationDetail⟩)

/-- GET /users/{user_id} (routes.py lines 34-41): 200 with the serialized row,
or HTTPException(404, "User not found"). -/
def get_user (st : AppState) (user_id : Int) :
    AppState × Except HTTPException UserResponse :=
  match getUserById st.store user_id with
  | some u => (st, Except.ok (userToResponse u))
  | none => (st, Except.error ⟨404, "User not found"⟩)

/-- GET /users/ (routes.py lines 44-49): paginated listing, each row
serialized as UserResponse. -/
def list_users (st : AppState) (skip limit : Nat) :
    AppState × List UserResponse :=
  (st, (listUsers st.store skip limit).map userToResponse)

/-- POST /posts/ (routes.py lines 52-64): insert and commit (always succeeds:
no constraints on posts), increment posts_created_total, return the row
serialized as PostResponse. -/
def create_post (st : AppState) (post : PostCreate) (now : Nat) :
    AppState × Except HTTPException PostResponse :=
  let r := insertPost st.store post.title post.content post.author_id now
  (⟨r.1, ⟨st.metrics.users_created_total, st.metrics.posts_created_total + 1⟩⟩,
    Except.ok (postToResponse r.2))

/-- GET /posts/{post_id} (routes.py lines 67-74). -/
def get_post (st : AppState) (post_id : Int) :
    AppState × Except HTTPException PostResponse :=
  match getPostById st.store post_id with
  | some p => (st, Except.ok (postToResponse p))
  | none => (st, Except.error ⟨404, "Post not found"⟩)

/-- GET /posts/ (routes.py lines 77-82). -/
def list_posts (st : AppState) (skip limit : Nat) :
    AppState × List PostResponse :=
  (st, (listPosts st.store skip limit).map postToResponse)

/-- Root message of GET / (routes.py lines 14-16). -/
structure RootMessage where
  message : String
  version : String
  deriving DecidableEq, Repr

/-- GET / (routes.py lines 14-16): static message, no state touched. -/
def read_root (st : AppState) : AppState × RootMessage :=
  (st, ⟨"Wiki Service API - Async PostgreSQL", "2.0"⟩)

/-- Text exposition of the two counters, standing for
prometheus_client.generate_latest (a pure rendering of the counter values). -/
def metricsExposition (m : Metrics) : String :=
  "users_created_total " ++ toString m.users_created_total ++ "\n" ++
    "posts_created_total " ++ toString m.posts_created_total

/-- GET /metrics (routes.py lines 85-87): renders the counters, reads only. -/
def metrics (st : AppState) : AppState × String :=
  (st, metricsExposition st.metrics)

/-- Body of the healthy response of GET /health (routes.py line 96). -/
structure HealthResponse where
  status : String
  database : String
  deriving DecidableEq, Repr

/-- GET /health (routes.py lines 90-98): execute select(1) in a fresh session;
on success return the healthy body, on a connectivity failure raise
HTTPException(503, "Database connection failed: " + str(e)).  `dbUp` is the
outcome of the ping and `errMsg` the driver message str(e) when it fails. -/
def health_check (dbUp : Bool) (errMsg : String) (st : AppState) :
    AppState × Except HTTPException HealthResponse :=
  if dbUp then (st, Except.ok ⟨"healthy", "connected"⟩)
  else (st, Except.error ⟨503, "Database connection failed: " ++ errMsg⟩)

/-- Store well-formedness, maintained by the store itself: rows sit in
strictly increasing primary-key order (ids come from a sequence), every
stored id is below the sequence's next value, and the sequences start
at 1 (so ids are positive). -/
def Store.WF (s : Store) : Prop :=
  s.users.Pairwise (fun a b => a.id < b.id) ∧
  (∀ u ∈ s.users, u.id < s.nextUserId) ∧
  s.posts.Pairwise (fun a b => a.id < b.id) ∧
  (∀ p ∈ s.posts, p.id < s.nextPostId) ∧
  0 < s.nextUserId ∧ 0 < s.nextPostId

theorem initStore_wf : initStore.WF := by
  simp [Store.WF, initStore]

theorem insertUser_wf {s s2 : Store} {username email : String} {now : Nat}
    {row : User} (hwf : s.WF)
    (h : insertUser s username email now = some (s2, row)) : s2.WF := by
  obtain ⟨h1, h2, h3, h4, h5, h6⟩ := hwf
  unfold insertUser at h
  by_cases hc : hasUserConflict s username email
  · simp [hc] at h
  · simp [hc] at h
    obtain ⟨hs2, _⟩ := h
    subst hs2
    refine ⟨?_, ?_, h3, h4, Nat.succ_pos _, h6⟩
    · rw [List.pairwise_append]
      exact ⟨h1, List.pairwise_singleton _ _,
        fun a ha b hb => by simp at hb; subst hb; exact h2 a ha⟩
    · intro u hu
      rcases List.mem_append.1 hu with h' | h'
      · exact Nat.lt_succ_of_lt (h2 u h')
      · simp at h'; subst h'; exact Nat.lt_succ_self _

theorem insertPost_wf {s : Store} {title content : String} {author_id : Int}
    {now : Nat} (hwf : s.WF) :
    (insertPost s title content author_id now).1.WF := by
  obtain ⟨h1, h2, h3, h4, h5, h6⟩ := hwf
  unfold insertPost
  refine ⟨h1, h2, ?_, ?_, h5, Nat.succ_pos _⟩
  · rw [List.pairwise_append]
    exact ⟨h3, List.pairwise_singleton _ _,
      fun a ha b hb => by simp at hb; subst hb; exact h4 a ha⟩
  · intro p hp
    rcases List.mem_append.1 hp with h' | h'
    · exact Nat.lt_succ_of_lt (h4 p h')
    · simp at h'; subst h'; exact Nat.lt_succ_self _

/-!
Concurrency model for the counters (spec section 5): each in-flight request is
a sequence of atomic steps; the only shared mutable in-process state is the
pair of counters, and each prometheus counter increment is a single atomic
step.  An execution of N concurrent requests is an interleaving of their step
sequences that preserves each request's own order.
-/

/-- Atomic steps of a request as they affect shared in-process state:
a store round-trip (insert + commit, which touches no counter), or one of the
two counter increments (routes.py lines 27 and 60). -/
inductive Event where
  | dbWrite
  | incUsers
  | incPosts
  deriving DecidableEq, Repr

/-- Effect of one atomic step on the shared counters. -/
def applyEvent (m : Metrics) : Event → Metrics
  | Event.dbWrite => m
  | Event.incUsers => { m with users_created_total := m.users_created_total + 1 }
  | Event.incPosts => { m with posts_created_total := m.posts_created_total + 1 }

/-- Run a whole execution trace over the shared counters. -/
def runEvents (m : Metrics) : List Event → Metrics
  | [] => m
  | e :: t => runEvents (applyEvent m e) t

/-- Step sequence of one successful POST /users/ request: the committed insert
followed by exactly one users_created_total increment (routes.py lines 23-27).
With pairwise distinct usernames and emails every one of the N concurrent
inserts succeeds, so every request runs this trace. -/
def createUserEvents : List Event := [Event.dbWrite, Event.incUsers]

/-- zs is an order-preserving interleaving of xs and ys. -/
inductive Shuffle2 : List Event → List Event → List Event → Prop where
  | nil : Shuffle2 [] [] []
  | left {x xs ys zs} : Shuffle2 xs ys zs → Shuffle2 (x :: xs) ys (x :: zs)
  | right {xs y ys zs} : Shuffle2 xs ys zs → Shuffle2 xs (y :: ys) (y :: zs)

/-- t is an order-preserving interleaving of the request traces trs. -/
inductive Interleaving : List (List Event) → List Event → Prop where
  | nil : Interleaving [] []
  | cons {tr trs rest t} : Shuffle2 tr rest t → Interleaving trs rest →
      Interleaving (tr :: trs) t

theorem shuffle2_count {xs ys zs : List Event} (h : Shuffle2 xs ys zs)
    (e : Event) : zs.count e = xs.count e + ys.count e := by
  induction h with
  | nil => rfl
  | left _ ih => simp [List.count_cons, ih]; omega
  | right _ ih => simp [List.count_cons, ih]; omega

theorem interleaving_count {trs : List (List Event)} {t : List Event}
    (h : Interleaving trs t) (e : Event) :
    t.count e = (trs.map fun tr => tr.count e).sum := by
  induction h with
  | nil => rfl
  | cons hs _ ih => rw [shuffle2_count hs e, ih]; simp

theorem runEvents_users (t : List Event) : ∀ m : Metrics,
    (runEvents m t).users_created_total =
      m.users_created_total + t.count Event.incUsers := by
  induction t with
  | nil => intro m; simp [runEvents]
  | cons e t ih =>
      intro m
      rw [runEvents, ih]
      cases e
      · simp [applyEvent]
      · simp [applyEvent, List.count_cons]
        omega
      · simp [applyEvent, List.count_cons]

/-- C10: every read-only endpoint, on every input and so on both its success
and its 404 paths, leaves the whole service state unchanged: the users and
posts tables of the Entity Store and both counters. -/
theorem readonly_endpoints_frame (st : AppState) :
    (∀ uid : Int, (get_user st uid).1 = st) ∧
    (∀ skip limit : Nat, (list_users st skip limit).1 = st) ∧
    (∀ pid : Int, (get_post st pid).1 = st) ∧
    (∀ skip limit : Nat, (list_posts st skip limit).1 = st) ∧
    (metrics st).1 = st ∧
    (read_root st).1 = st := by
  refine ⟨fun uid => ?_, fun skip limit => rfl, fun pid => ?_,
    fun skip limit => rfl, rfl, rfl⟩
  · unfold get_user
    cases getUserById st.store uid <;> rfl
  · unfold get_post
    cases getPostById st.store pid <;> rfl

/-- C7: GET /health returns 200 with status "healthy" and database "connected"
exactly when the store ping succeeds, returns 503 with a detail naming the
database connection failure when the ping fails, and in neither case changes
the store or the counters. -/
theorem health_check_spec (msg : String) (st : AppState) :
    health_check true msg st = (st, Except.ok ⟨"healthy", "connected"⟩) ∧
    health_check false msg st =
      (st, Except.error ⟨503, "Database connection failed: " ++ msg⟩) ∧
    (∀ dbUp, (health_check dbUp msg st).1 = st) ∧
    (∀ dbUp, (health_check dbUp msg st).2 =
        Except.ok ⟨"healthy", "connected"⟩ ↔ dbUp = true) := by
  refine ⟨rfl, rfl, fun dbUp => ?_, fun dbUp => ?_⟩
  · cases dbUp <;> rfl
  · cases dbUp <;> simp [health_check]

/-- C8: inserting a post enforces no uniqueness constraint and no referential
integrity on author_id: for every store state (in particular one holding no
User whose id equals the payload's author_id) and every payload,
POST /posts/ succeeds and the post is stored with author_id unchanged. -/
theorem create_post_no_integrity (st : AppState) (body : PostCreate)
    (now : Nat) :
    ∃ st2 r, create_post st body now = (st2, Except.ok r) ∧
      r.title = body.title ∧ r.content = body.content ∧
      r.author_id = body.author_id ∧
      ∃ p ∈ st2.store.posts, p.id = r.id ∧ p.title = body.title ∧
        p.content = body.content ∧ p.author_id = body.author_id := by
  refine ⟨_, _, rfl, rfl, rfl, rfl, ?_⟩
  exact ⟨⟨st.store.nextPostId, body.title, body.content, body.author_id, now⟩,
    by simp [create_post, insertPost, postToResponse], rfl, rfl, rfl, rfl⟩

/-- C1: when the insert succeeds (no existing user carries the requested
username or email), POST /users/ returns the created User with the
store-assigned id, that id is positive, the row is persisted, and
users_created_total grows by exactly 1 (posts_created_total untouched). -/
theorem create_user_unique_ok (st : AppState) (body : UserCreate) (now : Nat)
    (hwf : st.store.WF)
    (hnc : hasUserConflict st.store body.username body.email = false) :
    ∃ st2 r, create_user st body now = (st2, Except.ok r) ∧
      0 < r.id ∧ r.id = st.store.nextUserId ∧
      r.username = body.username ∧ r.email = body.email ∧
      (∃ u ∈ st2.store.users, u.id = r.id ∧ u.username = body.username ∧
        u.email = body.email) ∧
      st2.metrics.users_created_total = st.metrics.users_created_total + 1 ∧
      st2.metrics.posts_created_total = st.metrics.posts_created_total := by
  have hins : insertUser st.store body.username body.email now =
      some ({ st.store with
          users := st.store.users ++
            [⟨st.store.nextUserId, body.username, body.email, now⟩],
          nextUserId := st.store.nextUserId + 1 },
        ⟨st.store.nextUserId, body.username, body.email, now⟩) := by
    simp [insertUser, hnc]
  unfold create_user
  rw [hins]
  refine ⟨_, _, rfl, hwf.2.2.2.2.1, rfl, rfl, rfl, ?_, rfl, rfl⟩
  exact ⟨⟨st.store.nextUserId, body.username, body.email, now⟩,
    by simp, rfl, rfl, rfl⟩

/-- Witness for C1 at the initial state. -/
theorem create_user_unique_ok_witness :
    initState.store.WF ∧
    hasUserConflict initState.store "alice" "alice@example.com" = false ∧
    (∃ st2 r, create_user initState ⟨"alice", "alice@example.com"⟩ 0 =
        (st2, Except.ok r) ∧
      0 < r.id ∧ r.id = initState.store.nextUserId ∧
      r.username = "alice" ∧ r.email = "alice@example.com" ∧
      (∃ u ∈ st2.store.users, u.id = r.id ∧ u.username = "alice" ∧
        u.email = "alice@example.com") ∧
      st2.metrics.users_created_total =
        initState.metrics.users_created_total + 1 ∧
      st2.metrics.posts_created_total =
        initState.metrics.posts_created_total) :=
  ⟨initStore_wf, rfl,
    create_user_unique_ok initState ⟨"alice", "alice@example.com"⟩ 0
      initStore_wf rfl⟩

/-- C2: when the requested username or email duplicates a stored user, the
insert fails, POST /users/ answers 400, the rolled-back state is exactly the
pre-request state (no row inserted), and users_created_total is unchanged. -/
theorem create_user_conflict_rollback (st : AppState) (body : UserCreate)
    (now : Nat)
    (hc : hasUserConflict st.store body.username body.email = true) :
    create_user st body now = (st, Except.error ⟨400, uniqueViolationDetail⟩) ∧
    (create_user st body now).1.store.users = st.store.users ∧
    (create_user st body now).1.metrics.users_created_total =
      st.metrics.users_created_total := by
  have hins : insertUser st.store body.username body.email now = none := by
    simp [insertUser, hc]
  have h400 : create_user st body now =
      (st, Except.error ⟨400, uniqueViolationDetail⟩) := by
    unfold create_user
    rw [hins]
  exact ⟨h400, by rw [h400], by rw [h400]⟩

/-- Witness for C2: a store holding alice, re-posting the same username. -/
theorem create_user_conflict_rollback_witness :
    hasUserConflict
      (⟨⟨[⟨1, "alice", "alice@example.com", 0⟩], [], 2, 1⟩, ⟨1, 0⟩⟩ :
        AppState).store "alice" "other@example.com" = true ∧
    (create_user ⟨⟨[⟨1, "alice", "alice@example.com", 0⟩], [], 2, 1⟩, ⟨1, 0⟩⟩
        ⟨"alice", "other@example.com"⟩ 5 =
      (⟨⟨[⟨1, "alice", "alice@example.com", 0⟩], [], 2, 1⟩, ⟨1, 0⟩⟩,
        Except.error ⟨400, uniqueViolationDetail⟩) ∧
    (create_user ⟨⟨[⟨1, "alice", "alice@example.com", 0⟩], [], 2, 1⟩, ⟨1, 0⟩⟩
        ⟨"alice", "other@example.com"⟩ 5).1.store.users =
      (⟨⟨[⟨1, "alice", "alice@example.com", 0⟩], [], 2, 1⟩, ⟨1, 0⟩⟩ :
        AppState).store.users ∧
    (create_user ⟨⟨[⟨1, "alice", "alice@example.com", 0⟩], [], 2, 1⟩, ⟨1, 0⟩⟩
        ⟨"alice", "other@example.com"⟩ 5).1.metrics.users_created_total =
      (⟨⟨[⟨1, "alice", "alice@example.com", 0⟩], [], 2, 1⟩, ⟨1, 0⟩⟩ :
        AppState).metrics.users_created_total) :=
  ⟨by decide,
    create_user_conflict_rollback
      ⟨⟨[⟨1, "alice", "alice@example.com", 0⟩], [], 2, 1⟩, ⟨1, 0⟩⟩
      ⟨"alice", "other@example.com"⟩ 5 (by decide)⟩

/-- C9: any order-preserving interleaving of N successful POST /users/
request traces (distinct usernames, so every insert commits) increments
users_created_total by exactly N: the atomic counter loses no update. -/
theorem users_created_total_concurrent (N : Nat) (m : Metrics)
    (t : List Event)
    (h : Interleaving (List.replicate N createUserEvents) t) :
    (runEvents m t).users_created_total = m.users_created_total + N := by
  rw [runEvents_users t m, interleaving_count h Event.incUsers]
  have h1 : createUserEvents.count Event.incUsers = 1 := rfl
  simp [List.map_replicate, h1]

/-- Witness for C9: two concurrent creations whose store writes both precede
both counter increments still count 2. -/
theorem users_created_total_concurrent_witness :
    Interleaving (List.replicate 2 createUserEvents)
      [Event.dbWrite, Event.dbWrite, Event.incUsers, Event.incUsers] ∧
    (runEvents ⟨0, 0⟩
        [Event.dbWrite, Event.dbWrite, Event.incUsers,
          Event.incUsers]).users_created_total = Metrics.users_created_total ⟨0, 0⟩ + 2 := by
  have hsh : Shuffle2 createUserEvents createUserEvents
      [Event.dbWrite, Event.dbWrite, Event.incUsers, Event.incUsers] :=
    Shuffle2.left (Shuffle2.right (Shuffle2.left (Shuffle2.right Shuffle2.nil)))
  have hsh2 : Shuffle2 createUserEvents [] createUserEvents :=
    Shuffle2.left (Shuffle2.left Shuffle2.nil)
  have hrep : List.replicate 2 createUserEvents =
      [createUserEvents, createUserEvents] := rfl
  have hint : Interleaving (List.replicate 2 createUserEvents)
      [Event.dbWrite, Event.dbWrite, Event.incUsers, Event.incUsers] := by
    rw [hrep]
    exact Interleaving.cons hsh (Interleaving.cons hsh2 Interleaving.nil)
  exact ⟨hint, users_created_total_concurrent 2 ⟨0, 0⟩ _ hint⟩

/-- C4 (counterexample): serialization is NOT an omission-free projection of
the persisted entity: two rows differing only in created_at serialize to the
same response, so created_at (a persisted field of both models) is omitted
and neither projection is injective. -/
theorem serialization_omits_created_at :
    userToResponse ⟨1, "alice", "alice@example.com", 0⟩ =
      userToResponse ⟨1, "alice", "alice@example.com", 1⟩ ∧
    postToResponse ⟨1, "t", "c", 2, 0⟩ = postToResponse ⟨1, "t", "c", 2, 1⟩ ∧
    ¬ Function.Injective userToResponse ∧
    ¬ Function.Injective postToResponse := by
  refine ⟨rfl, rfl, fun hinj => ?_, fun hinj => ?_⟩
  · have h := hinj (show userToResponse ⟨1, "alice", "alice@example.com", 0⟩ =
        userToResponse ⟨1, "alice", "alice@example.com", 1⟩ from rfl)
    exact absurd (congrArg User.created_at h) (by decide)
  · have h := hinj (show postToResponse ⟨1, "t", "c", 2, 0⟩ =
        postToResponse ⟨1, "t", "c", 2, 1⟩ from rfl)
    exact absurd (congrArg Post.created_at h) (by decide)

/-- C4 (amended): the response payload is the field-for-field projection of
the persisted entity onto id, username, email (User) and onto id, title,
content, author_id (Post); the persisted created_at field is omitted, so the
response does not depend on it. -/
theorem serialization_field_projection (u : User) (p : Post) :
    userToResponse u = ⟨u.id, u.username, u.email⟩ ∧
    postToResponse p = ⟨p.id, p.title, p.content, p.author_id⟩ ∧
    (∀ c, userToResponse { u with created_at := c } = userToResponse u) ∧
    (∀ c, postToResponse { p with created_at := c } = postToResponse p) :=
  ⟨rfl, rfl, fun _ => rfl, fun _ => rfl⟩

theorem find?_user_byId {l : List User}
    (hs : l.Pairwise fun a b => a.id < b.id) {u : User} (hu : u ∈ l)
    {uid : Int} (hid : (u.id : Int) = uid) :
    (l.find? fun v => (v.id : Int) == uid) = some u := by
  induction l with
  | nil => cases hu
  | cons v t ih =>
      rcases List.mem_cons.1 hu with h | h
      · subst h
        exact List.find?_cons_of_pos _ (by simp [hid])
      · have hlt : v.id < u.id := (List.pairwise_cons.1 hs).1 u h
        have hne : ¬ ((v.id : Int) == uid) = true := by
          simp
          omega
        rw [@List.find?_cons_of_neg _ (fun w => (w.id : Int) == uid) v t hne]
        exact ih (List.pairwise_cons.1 hs).2 h

theorem find?_append_right {α : Type} (p : α → Bool) (l1 l2 : List α)
    (h : ∀ a ∈ l1, p a = false) :
    (l1 ++ l2).find? p = l2.find? p := by
  induction l1 with
  | nil => rfl
  | cons a t ih =>
      rw [List.cons_append,
        List.find?_cons_of_neg _ (by simp [h a (List.mem_cons_self a t)]),
        ih fun b hb => h b (List.mem_cons_of_mem a hb)]

/-- C5: GET /users/{id} with an id carried by a stored user answers 200 with
the stored row projected field-for-field (creation input plus assigned id);
with an id carried by no stored user it answers 404, and state is unchanged
either way. -/
theorem get_user_found_or_404 (st : AppState) (uid : Int)
    (hwf : st.store.WF) :
    (∀ u, u ∈ st.store.users → (u.id : Int) = uid →
      get_user st uid = (st, Except.ok ⟨u.id, u.username, u.email⟩)) ∧
    ((∀ u ∈ st.store.users, (u.id : Int) ≠ uid) →
      get_user st uid = (st, Except.error ⟨404, "User not found"⟩)) := by
  constructor
  · intro u hu hid
    have hfind : getUserById st.store uid = some u :=
      find?_user_byId hwf.1 hu hid
    simp [get_user, hfind, userToResponse]
  · intro hall
    have hfind : getUserById st.store uid = none := by
      apply List.find?_eq_none.2
      intro u hu
      simpa using hall u hu
    simp [get_user, hfind]

/-- Witness for C5 on a one-user store: id 1 is found and answered with the
projected row, id 2 is answered 404. -/
theorem get_user_found_or_404_witness :
    (⟨⟨[⟨1, "alice", "alice@example.com", 3⟩], [], 2, 1⟩, ⟨1, 0⟩⟩ :
        AppState).store.WF ∧
    ((∀ u, u ∈ (⟨⟨[⟨1, "alice", "alice@example.com", 3⟩], [], 2, 1⟩, ⟨1, 0⟩⟩ :
          AppState).store.users → (u.id : Int) = 1 →
        get_user ⟨⟨[⟨1, "alice", "alice@example.com", 3⟩], [], 2, 1⟩, ⟨1, 0⟩⟩ 1 =
          (⟨⟨[⟨1, "alice", "alice@example.com", 3⟩], [], 2, 1⟩, ⟨1, 0⟩⟩,
            Except.ok ⟨u.id, u.username, u.email⟩)) ∧
      ((∀ u ∈ (⟨⟨[⟨1, "alice", "alice@example.com", 3⟩], [], 2, 1⟩, ⟨1, 0⟩⟩ :
            AppState).store.users, (u.id : Int) ≠ 1) →
        get_user ⟨⟨[⟨1, "alice", "alice@example.com", 3⟩], [], 2, 1⟩, ⟨1, 0⟩⟩ 1 =
          (⟨⟨[⟨1, "alice", "alice@example.com", 3⟩], [], 2, 1⟩, ⟨1, 0⟩⟩,
            Except.error ⟨404, "User not found"⟩))) ∧
    ((∀ u, u ∈ (⟨⟨[⟨1, "alice", "alice@example.com", 3⟩], [], 2, 1⟩, ⟨1, 0⟩⟩ :
          AppState).store.users → (u.id : Int) = 2 →
        get_user ⟨⟨[⟨1, "alice", "alice@example.com", 3⟩], [], 2, 1⟩, ⟨1, 0⟩⟩ 2 =
          (⟨⟨[⟨1, "alice", "alice@example.com", 3⟩], [], 2, 1⟩, ⟨1, 0⟩⟩,
            Except.ok ⟨u.id, u.username, u.email⟩)) ∧
      ((∀ u ∈ (⟨⟨[⟨1, "alice", "alice@example.com", 3⟩], [], 2, 1⟩, ⟨1, 0⟩⟩ :
            AppState).store.users, (u.id : Int) ≠ 2) →
        get_user ⟨⟨[⟨1, "alice", "alice@example.com", 3⟩], [], 2, 1⟩, ⟨1, 0⟩⟩ 2 =
          (⟨⟨[⟨1, "alice", "alice@example.com", 3⟩], [], 2, 1⟩, ⟨1, 0⟩⟩,
            Except.error ⟨404, "User not found"⟩))) := by
  have hwf : (⟨⟨[⟨1, "alice", "alice@example.com", 3⟩], [], 2, 1⟩, ⟨1, 0⟩⟩ :
      AppState).store.WF := by
    refine ⟨?_, ?_, ?_, ?_, ?_, ?_⟩ <;> simp [Store.WF]
  exact ⟨hwf,
    get_user_found_or_404
      ⟨⟨[⟨1, "alice", "alice@example.com", 3⟩], [], 2, 1⟩, ⟨1, 0⟩⟩ 1 hwf,
    get_user_found_or_404
      ⟨⟨[⟨1, "alice", "alice@example.com", 3⟩], [], 2, 1⟩, ⟨1, 0⟩⟩ 2 hwf⟩

/-- C6: listUsers(skip, limit) returns at most limit users (so at most 10 for
limit = 10), keeps the store-default primary-key order, the full listing with
skip 0 and limit covering the table is the whole users table, and offset
consistency holds: no returned user appears among the first skip entries of
the unfiltered full listing. -/
theorem listUsers_pagination (s : Store) (skip limit : Nat) (hwf : s.WF) :
    (listUsers s skip limit).length ≤ limit ∧
    (listUsers s skip limit).Pairwise (fun a b => a.id < b.id) ∧
    listUsers s 0 s.users.length = s.users ∧
    ∀ u ∈ listUsers s skip limit, u ∉ s.users.take skip := by
  refine ⟨?_, ?_, ?_, ?_⟩
  · simp [listUsers, List.length_take]
  · have hsub : (listUsers s skip limit).Sublist s.users := by
      unfold listUsers
      exact (List.take_sublist _ _).trans (List.drop_sublist _ _)
    exact hwf.1.sublist hsub
  · simp [listUsers]
  · intro u hu hmem
    have hnd : s.users.Nodup :=
      hwf.1.imp fun hlt heq => absurd hlt (by rw [heq]; exact lt_irrefl _)
    have hu' : u ∈ s.users.drop skip := List.mem_of_mem_take hu
    exact List.disjoint_take_drop hnd (le_refl skip) hmem hu'

/-- Witness for C6 on a two-user store with skip 1, limit 10. -/
theorem listUsers_pagination_witness :
    (⟨[⟨1, "alice", "alice@example.com", 0⟩, ⟨2, "bob", "bob@example.com", 0⟩],
        [], 3, 1⟩ : Store).WF ∧
    ((listUsers ⟨[⟨1, "alice", "alice@example.com", 0⟩,
          ⟨2, "bob", "bob@example.com", 0⟩], [], 3, 1⟩ 1 10).length ≤ 10 ∧
      (listUsers ⟨[⟨1, "alice", "alice@example.com", 0⟩,
          ⟨2, "bob", "bob@example.com", 0⟩], [], 3, 1⟩ 1 10).Pairwise
        (fun a b => a.id < b.id) ∧
      listUsers ⟨[⟨1, "alice", "alice@example.com", 0⟩,
          ⟨2, "bob", "bob@example.com", 0⟩], [], 3, 1⟩ 0
        (Store.users ⟨[⟨1, "alice", "alice@example.com", 0⟩,
          ⟨2, "bob", "bob@example.com", 0⟩], [], 3, 1⟩).length =
        (⟨[⟨1, "alice", "alice@example.com", 0⟩,
          ⟨2, "bob", "bob@example.com", 0⟩], [], 3, 1⟩ : Store).users ∧
      ∀ u ∈ listUsers ⟨[⟨1, "alice", "alice@example.com", 0⟩,
          ⟨2, "bob", "bob@example.com", 0⟩], [], 3, 1⟩ 1 10,
        u ∉ (⟨[⟨1, "alice", "alice@example.com", 0⟩,
          ⟨2, "bob", "bob@example.com", 0⟩], [], 3, 1⟩ : Store).users.take 1) := by
  have hwf : (⟨[⟨1, "alice", "alice@example.com", 0⟩,
      ⟨2, "bob", "bob@example.com", 0⟩], [], 3, 1⟩ : Store).WF := by
    refine ⟨?_, ?_, ?_, ?_, ?_, ?_⟩ <;> simp [Store.WF]
  exact ⟨hwf, listUsers_pagination ⟨[⟨1, "alice", "alice@example.com", 0⟩,
    ⟨2, "bob", "bob@example.com", 0⟩], [], 3, 1⟩ 1 10 hwf⟩

/-- C3: creating a post from any valid payload and fetching it back by the
returned id yields a post whose title, content and author_id equal the
payload's (round-trip). -/
theorem post_roundtrip (st : AppState) (body : PostCreate) (now : Nat)
    (hwf : st.store.WF) :
    ∃ st2 r, create_post st body now = (st2, Except.ok r) ∧
      ∃ r2, (get_post st2 (r.id : Int)).2 = Except.ok r2 ∧
        r2.title = body.title ∧ r2.content = body.content ∧
        r2.author_id = body.author_id := by
  refine ⟨_, _, rfl, ?_⟩
  have hall : ∀ q ∈ st.store.posts,
      ((q.id : Int) == (st.store.nextPostId : Int)) = false := by
    intro q hq
    have := hwf.2.2.2.1 q hq
    simp
    omega
  have hfind : (List.find?
      (fun p => (p.id : Int) == (st.store.nextPostId : Int))
      (st.store.posts ++
        [⟨st.store.nextPostId, body.title, body.content, body.author_id,
          now⟩])) =
      some ⟨st.store.nextPostId, body.title, body.content, body.author_id,
        now⟩ := by
    rw [find?_append_right _ _ _ hall]
    simp [List.find?]
  refine ⟨⟨st.store.nextPostId, body.title, body.content, body.author_id⟩,
    ?_, rfl, rfl, rfl⟩
  simp [create_post, get_post, getPostById, insertPost, postToResponse, hfind]

/-- Witness for C3 at the initial state. -/
theorem post_roundtrip_witness :
    initState.store.WF ∧
    (∃ st2 r, create_post initState ⟨"Title", "Content", 7⟩ 0 =
        (st2, Except.ok r) ∧
      ∃ r2, (get_post st2 (r.id : Int)).2 = Except.ok r2 ∧
        r2.title = "Title" ∧ r2.content = "Content" ∧
        r2.author_id = 7) :=
  ⟨initStore_wf, post_roundtrip initState ⟨"Title", "Content", 7⟩ 0 initStore_wf⟩
